import Mathlib

/-!
Verification of the WTE installer/manager CLI against its specification.

Each Go function relevant to the claims is shallow-embedded as an
executable Lean definition: pure logic is translated directly, and
interactions with the OS (command lookup, service state, HTTP responses,
the filesystem) are modelled by explicit environment parameters.
-/

namespace WTE

/-! ### Self-updater version comparison (internal/updater/updater.go) -/

/-- Embedding of Go `strings.TrimPrefix(s, "v")`: removes one leading
`"v"` if present, otherwise returns the string unchanged. -/
def trimLeadingV (s : String) : String :=
  match s.toList with
  | 'v' :: rest => String.mk rest
  | _ => s

/-- Go's `<` on the byte sequences of two strings, expressed on the
character lists (the strings compared by the updater are ASCII, where
byte order and code-point order coincide). -/
def goListLess : List Char → List Char → Bool
  | [], [] => false
  | [], _ :: _ => true
  | _ :: _, [] => false
  | a :: as, b :: bs =>
    if a.toNat < b.toNat then true
    else if b.toNat < a.toNat then false
    else goListLess as bs

/-- Go's lexicographic string comparison `a < b`. -/
def goStringLess (a b : String) : Bool :=
  goListLess a.toList b.toList

/-- Embedding of the comparison in `Updater.CheckForUpdate`
(updater.go lines 114-118): both the release tag and the current version
are stripped of a leading `"v"`, and
`hasUpdate := latestVersion != currentVersion && latestVersion > currentVersion`
where `>` is Go's plain lexicographic string comparison. -/
def checkForUpdateHasUpdate (currentVersion tagName : String) : Bool :=
  let latestVersion := trimLeadingV tagName
  let current := trimLeadingV currentVersion
  decide (latestVersion ≠ current) && goStringLess current latestVersion

/-! ### Firewall backend detection (internal/system/firewall.go) -/

/-- Host facts probed by `detectFirewall`: whether the `ufw`,
`firewall-cmd` and `iptables` commands exist on PATH, and whether the
`firewalld` systemd service is actively running. -/
structure FirewallHost where
  ufwExists : Bool
  firewallCmdExists : Bool
  firewalldActive : Bool
  iptablesExists : Bool

/-- Firewall type constant (firewall.go line 16). -/
def FirewallUFW : String := "ufw"

/-- Firewall type constant (firewall.go line 17). -/
def FirewallFirewalld : String := "firewalld"

/-- Firewall type constant (firewall.go line 18). -/
def FirewallIPTables : String := "iptables"

/-- Firewall type constant (firewall.go line 19). -/
def FirewallNone : String := "none"

/-- Embedding of `FirewallManager.detectFirewall` (firewall.go lines 35-55):
ufw wins whenever the `ufw` command exists; otherwise firewalld is chosen
only when `firewall-cmd` exists and the `firewalld` service is active;
otherwise iptables when present; otherwise `"none"`. -/
def detectFirewall (h : FirewallHost) : String :=
  if h.ufwExists then FirewallUFW
  else if h.firewallCmdExists && h.firewalldActive then FirewallFirewalld
  else if h.iptablesExists then FirewallIPTables
  else FirewallNone

/-! ### Architecture detection (internal/system, detectArch) -/

/-- The two architecture fields `detectArch` fills in `OSInfo`. -/
structure OSArchInfo where
  arch : String
  gostArch : String
deriving DecidableEq, Repr

/-- Embedding of `detectArch` (src/unnamed/part_003 lines 51-70): the
runtime architecture string is mapped through a fixed three-entry table,
and every other value yields an unsupported-architecture error. -/
def detectArch (goarch : String) : Except String OSArchInfo :=
  if goarch = "amd64" then .ok ⟨"x86_64", "amd64"⟩
  else if goarch = "arm64" then .ok ⟨"aarch64", "arm64"⟩
  else if goarch = "arm" then .ok ⟨"armv7l", "armv7"⟩
  else .error ("unsupported architecture: " ++ goarch)

/-! ### Configuration model (src/unnamed/part_008, internal/config) -/

/-- Go struct `GOSTConfig`. -/
structure GOSTConfig where
  version : String
  binaryPath : String
  configDir : String
  configFile : String
deriving DecidableEq, Repr

/-- Go struct `AuthConfig`. -/
structure AuthConfig where
  enabled : Bool
  username : String
  password : String
deriving DecidableEq, Repr

/-- Go struct `HTTPConfig`. -/
structure HTTPConfig where
  enabled : Bool
  port : Int
  auth : AuthConfig
deriving DecidableEq, Repr

/-- Go struct `HTTPSConfig`. -/
structure HTTPSConfig where
  enabled : Bool
  port : Int
  certPath : String
  keyPath : String
  auth : AuthConfig
deriving DecidableEq, Repr

/-- Go struct `ShadowsocksConfig`. -/
structure ShadowsocksConfig where
  enabled : Bool
  port : Int
  method : String
  password : String
deriving DecidableEq, Repr

/-- Go struct `FirewallConfig`. -/
structure FirewallConfig where
  autoConfigure : Bool
deriving DecidableEq, Repr

/-- Go struct `LoggingConfig`. -/
structure LoggingConfig where
  level : String
deriving DecidableEq, Repr

/-- Go struct `Config`: the tool's whole configuration model. -/
structure Config where
  gost : GOSTConfig
  http : HTTPConfig
  https : HTTPSConfig
  shadowsocks : ShadowsocksConfig
  firewall : FirewallConfig
  logging : LoggingConfig
deriving DecidableEq, Repr

/-! ### Config validation (src/unnamed/part_001, ConfigGenerator.Validate) -/

/-- The error text `fmt.Errorf("port %d conflict: %s and %s", ...)`
produced by `Validate` when a later service claims an already-used port. -/
def conflictMsg (port : Int) (svc existing : String) : String :=
  "port " ++ toString port ++ " conflict: " ++ svc ++ " and " ++ existing

/-- The `ports` map of `Validate`, as an association list (in Go a
`map[int]string`; each key occurs at most once in either model). -/
def portsLookup : List (Int × String) → Int → Option String
  | [], _ => none
  | (q, n) :: rest, p => if q = p then some n else portsLookup rest p

/-- One guarded block of `Validate`: if the service is enabled, look its
port up in the map, failing with the earlier claimant's name on a hit,
and otherwise record this service as the port's claimant. -/
def claimPort (enabled : Bool) (port : Int) (name : String)
    (ports : List (Int × String)) : Except String (List (Int × String)) :=
  if enabled then
    match portsLookup ports port with
    | some existing => .error (conflictMsg port name existing)
    | none => .ok (ports ++ [(port, name)])
  else .ok ports

/-- Embedding of `ConfigGenerator.Validate` (src/unnamed/part_001 lines
181-211): fail when no service is enabled, then consider enabled services
in the fixed order HTTP, HTTPS, Shadowsocks, recording the first claimant
of every port. -/
def Validate (c : Config) : Except String Unit :=
  if !c.http.enabled && !c.https.enabled && !c.shadowsocks.enabled then
    .error "at least one service must be enabled"
  else
    match claimPort c.http.enabled c.http.port "HTTP" [] with
    | .error e => .error e
    | .ok ports1 =>
      match claimPort c.https.enabled c.https.port "HTTPS" ports1 with
      | .error e => .error e
      | .ok ports2 =>
        match claimPort c.shadowsocks.enabled c.shadowsocks.port "Shadowsocks" ports2 with
        | .error e => .error e
        | .ok _ => .ok ()

/-! ### Self-update binary swap (internal/updater/updater.go, Update) -/

/-- A filesystem, as a partial map from paths to file contents.
Permission bits are not tracked; the chmod step's possible failure is
injected separately. -/
def FS : Type := String → Option String

/-- Whole-file write (`os.Create` + write): truncates or creates. -/
def FS.write (fs : FS) (p c : String) : FS :=
  fun q => if q = p then some c else fs q

/-- Embedding of `os.Remove`. -/
def FS.remove (fs : FS) (p : String) : FS :=
  fun q => if q = p then none else fs q

/-- Embedding of `os.Rename src dst`: fails when the source does not exist, else moves
the content (replacing any file at the destination). -/
def FS.rename (fs : FS) (src dst : String) : Except String FS :=
  match fs src with
  | none => .error ("rename " ++ src ++ ": no such file")
  | some c => .ok ((fs.remove src).write dst c)

/-- Embedding of `Updater.copyFile` (updater.go lines 335-350): open the source and
write its content to the destination. -/
def FS.copyFile (fs : FS) (src dst : String) : Except String FS :=
  match fs src with
  | none => .error ("open " ++ src ++ ": no such file")
  | some c => .ok (fs.write dst c)

/-- Boolean success test for `Except`. -/
def exceptOk {ε α : Type} : Except ε α → Bool
  | .ok _ => true
  | .error _ => false

/-- Embedding of the swap portion of `Updater.Update` (updater.go lines
229-256): rename the running executable to the `.backup` sibling, copy
the new binary into place (restoring the backup and erroring on failure),
set the executable bit (removing the copy, restoring the backup and
erroring on failure), and finally delete the backup. `copyFails` and
`chmodFails` inject I/O failures of the copy and chmod system calls; the
errors of the restore renames are discarded as in the source. -/
def updateSwap (fs : FS) (binaryPath execPath : String)
    (copyFails chmodFails : Bool) : Except String Unit × FS :=
  let backupPath := execPath ++ ".backup"
  match fs.rename execPath backupPath with
  | .error e => (.error ("failed to backup current binary: " ++ e), fs)
  | .ok fs1 =>
    match (if copyFails then Except.error "io error"
           else fs1.copyFile binaryPath execPath) with
    | .error e =>
      let fs2 := match fs1.rename backupPath execPath with
                 | .ok fsr => fsr
                 | .error _ => fs1
      (.error ("failed to install new binary: " ++ e), fs2)
    | .ok fs2 =>
      if chmodFails then
        let fs3 := fs2.remove execPath
        let fs4 := match fs3.rename backupPath execPath with
                   | .ok fsr => fsr
                   | .error _ => fs3
        (.error "failed to set permissions", fs4)
      else
        (.ok (), fs2.remove backupPath)

/-- A path is never equal to itself with `".backup"` appended. -/
theorem append_backup_ne (s : String) : s ++ ".backup" ≠ s := by
  intro h
  have hlen := congrArg String.length h
  rw [String.length_append] at hlen
  have hseven : (".backup" : String).length = 7 := by decide
  omega

/-! ### Password generation (internal/security, GeneratePassword) -/

/-- Constant `DefaultPasswordLength` (tls.go password section line 215). -/
def DefaultPasswordLength : Int := 16

/-- The standard base64 alphabet used by Go's `base64.StdEncoding`. -/
def b64chars : List Char :=
  "ABCDEFGHIJKLMNOPQRSTUVWXYZabcdefghijklmnopqrstuvwxyz0123456789+/".toList

/-- Character of the standard base64 alphabet at a 6-bit index. -/
def b64char (n : Nat) : Char := b64chars.getD n 'A'

/-- Go `base64.StdEncoding.EncodeToString` on a byte list (values < 256):
groups of three bytes yield four alphabet characters; a trailing group of
one or two bytes is padded with `'='`. -/
def base64Encode : List Nat → List Char
  | [] => []
  | [b0] => [b64char (b0 / 4), b64char (b0 % 4 * 16), '=', '=']
  | [b0, b1] => [b64char (b0 / 4), b64char (b0 % 4 * 16 + b1 / 16),
      b64char (b1 % 16 * 4), '=']
  | b0 :: b1 :: b2 :: rest =>
    b64char (b0 / 4) :: b64char (b0 % 4 * 16 + b1 / 16) ::
      b64char (b1 % 16 * 4 + b2 / 64) :: b64char (b2 % 64) :: base64Encode rest

/-- The three successive `strings.ReplaceAll(encoded, x, "")` calls of
`GeneratePassword` (tls.go password section lines 243-245), which
together delete every `'+'`, `'/'` and `'='`. -/
def stripSpecials (cs : List Char) : List Char :=
  cs.filter (fun c => !(c == '+' || c == '/' || c == '='))

/-- Embedding of `GeneratePassword` (tls.go password section lines
228-257). `r` is the stream of random bytes (`crypto/rand.Read` fills
every request in this model, so the random-source failure branch never
fires), `pos` counts the bytes consumed so far, and `fuel` bounds the
recursion depth of the Go code's unbounded recursion — `none` reports
fuel exhaustion, never an error of the embedded code. A non-positive
requested length is replaced by `DefaultPasswordLength`; stripping the
specials may shorten the encoding, in which case the difference is
requested recursively and the concatenation truncated to the requested
length. -/
def GeneratePassword : Nat → Int → (Nat → Nat) → Nat → Option (List Char)
  | 0, _, _, _ => none
  | fuel + 1, length, r, pos =>
    let n : Nat := if length ≤ 0 then DefaultPasswordLength.toNat else length.toNat
    let bytes := (List.range n).map (fun i => r (pos + i) % 256)
    let encoded := stripSpecials (base64Encode bytes)
    if encoded.length < n then
      match GeneratePassword fuel ((n : Int) - (encoded.length : Int)) r (pos + n) with
      | none => none
      | some additional => some ((encoded ++ additional).take n)
    else
      some (encoded.take n)

/-- Members of a stripped encoding avoid the three deleted characters. -/
theorem mem_stripSpecials {c : Char} {l : List Char} (h : c ∈ stripSpecials l) :
    c ≠ '+' ∧ c ≠ '/' ∧ c ≠ '=' := by
  simp only [stripSpecials, List.mem_filter, Bool.not_eq_eq_eq_not, Bool.not_true,
    Bool.or_eq_false_iff, beq_eq_false_iff_ne] at h
  exact ⟨h.2.1.1, h.2.1.2, h.2.2⟩

/-- Soundness of `GeneratePassword` for positive lengths: whenever a
password is produced it has exactly the requested number of characters
and avoids `'+'`, `'/'` and `'='`. -/
theorem generatePassword_sound :
    ∀ (fuel : Nat) (length : Int) (r : Nat → Nat) (pos : Nat) (s : List Char),
      0 < length → GeneratePassword fuel length r pos = some s →
      s.length = length.toNat ∧ ∀ c ∈ s, c ≠ '+' ∧ c ≠ '/' ∧ c ≠ '=' := by
  intro fuel
  induction fuel with
  | zero =>
    intro length r pos s _ h
    simp [GeneratePassword] at h
  | succ fuel ih =>
    intro length r pos s hpos h
    have hle : ¬ length ≤ 0 := by omega
    rw [GeneratePassword] at h
    simp only [if_neg hle] at h
    set n := length.toNat with hn
    have hnpos : 0 < n := by omega
    set bytes := (List.range n).map (fun i => r (pos + i) % 256) with hbytes
    set encoded := stripSpecials (base64Encode bytes) with henc
    by_cases hlt : encoded.length < n
    · simp only [if_pos hlt] at h
      cases hrec : GeneratePassword fuel ((n : Int) - (encoded.length : Int)) r (pos + n) with
      | none => rw [hrec] at h; simp at h
      | some additional =>
        rw [hrec] at h
        simp only [Option.some.injEq] at h
        have hposrec : 0 < (n : Int) - (encoded.length : Int) := by omega
        obtain ⟨hlen, hchars⟩ := ih _ r (pos + n) additional hposrec hrec
        have hlen' : additional.length = n - encoded.length := by omega
        constructor
        · rw [← h]
          simp [List.length_take, hlen']
          omega
        · intro c hc
          rw [← h] at hc
          have hc' := List.mem_of_mem_take hc
          rcases List.mem_append.mp hc' with hce | hca
          · exact mem_stripSpecials hce
          · exact hchars c hca
    · simp only [if_neg hlt, Option.some.injEq] at h
      constructor
      · rw [← h]
        simp [List.length_take]
        omega
      · intro c hc
        rw [← h] at hc
        exact mem_stripSpecials (List.mem_of_mem_take hc)

/-! ### Public IP detection (src/unnamed/part_004, GetPublicIP) -/

/-- The fixed ordered list `IPServices` of IP-echo endpoints
(src/unnamed/part_004 lines 14-20). -/
def IPServices : List String :=
  ["https://ifconfig.me", "https://icanhazip.com", "https://ipinfo.io/ip",
   "https://api.ipify.org", "https://ipecho.net/plain"]

/-- ASCII decimal digit (Go's regexp `\d` without Unicode flags). -/
def isDigitChar (c : Char) : Bool := 48 ≤ c.toNat && c.toNat ≤ 57

/-- A run of one to three ASCII digits (`\d{1,3}`). -/
def digitsRun (cs : List Char) : Bool :=
  decide (0 < cs.length) && decide (cs.length ≤ 3) && cs.all isDigitChar

/-- Split a character list at every `'.'` (the dots themselves removed;
empty segments preserved). -/
def splitDots : List Char → List (List Char)
  | [] => [[]]
  | '.' :: rest => [] :: splitDots rest
  | c :: rest =>
    match splitDots rest with
    | [] => [[c]]
    | p :: ps => (c :: p) :: ps

/-- Decision procedure for the anchored dotted-quad pattern
`^(\d{1,3}\.){3}\d{1,3}$` used by `GetPublicIP`: the string consists of
exactly four dot-separated runs of one to three ASCII digits. -/
def matchIPPattern (s : String) : Bool :=
  let parts := splitDots s.toList
  parts.length == 4 && parts.all digitsRun

/-- ASCII white space characters; embedding of Go `strings.TrimSpace`
restricted to the white space that IP-echo bodies carry. -/
def isSpaceChar (c : Char) : Bool :=
  c == ' ' || c == '\t' || c == '\n' || c == '\r'

/-- Trim leading and trailing white space from a string. -/
def trimSpace (s : String) : String :=
  String.mk (((s.toList.dropWhile isSpaceChar).reverse.dropWhile isSpaceChar).reverse)

/-- The loop body of `GetPublicIP` (src/unnamed/part_004 lines 23-49)
over a remaining list of endpoints; `responses svc` is the body received
from endpoint `svc`, or `none` when the GET or the body read fails. A
failing endpoint or a non-matching body falls through to the next
endpoint; exhausting the list yields the error the caller downgrades. -/
def getPublicIPFrom (responses : String → Option String) :
    List String → Except String String
  | [] => .error "could not determine public IP address"
  | svc :: rest =>
    match responses svc with
    | none => getPublicIPFrom responses rest
    | some body =>
      let ip := trimSpace body
      if matchIPPattern ip then .ok ip else getPublicIPFrom responses rest

/-- Embedding of `GetPublicIP`: iterate the fixed endpoint list. -/
def GetPublicIP (responses : String → Option String) : Except String String :=
  getPublicIPFrom responses IPServices

/-- Step 2 of `runInstall` (internal/cli/root.go lines 210-220): a
`GetPublicIP` error is downgraded to a warning (second component `true`)
and the literal placeholder `"YOUR_SERVER_IP"` is used instead. -/
def publicIPStep (responses : String → Option String) : String × Bool :=
  match GetPublicIP responses with
  | .ok ip => (ip, false)
  | .error _ => ("YOUR_SERVER_IP", true)

/-- When every endpoint of a list fails or answers with a non-matching
body, the probe loop reports the error. -/
theorem getPublicIPFrom_total_failure (responses : String → Option String) :
    ∀ l : List String,
      (∀ svc ∈ l, ∀ b, responses svc = some b → matchIPPattern (trimSpace b) = false) →
      getPublicIPFrom responses l = .error "could not determine public IP address" := by
  intro l
  induction l with
  | nil => intro _; rfl
  | cons svc rest ih =>
    intro hall
    rw [getPublicIPFrom]
    cases hr : responses svc with
    | none => exact ih fun s hs => hall s (List.mem_cons_of_mem _ hs)
    | some body =>
      have hm := hall svc (List.mem_cons_self _ _) body hr
      simp only [hm, Bool.false_eq_true, if_false]
      exact ih fun s hs => hall s (List.mem_cons_of_mem _ hs)

/-- The probe loop returns the trimmed body of the first endpoint whose
response matches the dotted-quad pattern. -/
theorem getPublicIPFrom_first_match (responses : String → Option String) :
    ∀ (pre : List String) (svc : String) (post : List String) (b : String),
      responses svc = some b → matchIPPattern (trimSpace b) = true →
      (∀ s ∈ pre, ∀ b2, responses s = some b2 → matchIPPattern (trimSpace b2) = false) →
      getPublicIPFrom responses (pre ++ svc :: post) = .ok (trimSpace b) := by
  intro pre
  induction pre with
  | nil =>
    intro svc post b hr hm _
    rw [List.nil_append, getPublicIPFrom, hr]
    simp [hm]
  | cons p rest ih =>
    intro svc post b hr hm hpre
    rw [List.cons_append, getPublicIPFrom]
    cases hp : responses p with
    | none => exact ih svc post b hr hm fun s hs => hpre s (List.mem_cons_of_mem _ hs)
    | some body =>
      have hmp := hpre p (List.mem_cons_self _ _) body hp
      simp only [hmp, Bool.false_eq_true, if_false]
      exact ih svc post b hr hm fun s hs => hpre s (List.mem_cons_of_mem _ hs)

/-! ### Install sequencer (internal/cli/root.go, runInstall) -/

/-- Embedding of `config.DefaultConfig()` (internal/config constants section). -/
def DefaultConfig : Config :=
  ⟨⟨"3.0.0-rc10", "/usr/local/bin/gost", "/etc/gost", "/etc/gost/config.yaml"⟩,
   ⟨true, 8080, ⟨true, "proxyuser", ""⟩⟩,
   ⟨false, 8443, "/etc/gost/cert.pem", "/etc/gost/key.pem", ⟨true, "proxyuser", ""⟩⟩,
   ⟨true, 9500, "aes-128-gcm", ""⟩,
   ⟨true⟩,
   ⟨"info"⟩⟩

/-- The `install` command's flags (internal/cli/root.go install section). -/
structure InstallFlags where
  httpPort : Int
  httpUser : String
  httpPass : String
  httpNoAuth : Bool
  ssEnabled : Bool
  ssPort : Int
  ssPassword : String
  ssMethod : String
  httpsEnabled : Bool
  httpsPort : Int
  gostVersion : String
  skipFirewall : Bool

/-- Outcomes of the external interactions of one `runInstall` run: which
fallible step fails, whether an installation pre-exists and its service
is active, and the passwords the random source would produce. -/
structure InstallEnv where
  notRoot : Bool
  detectOSFails : Bool
  publicIPFails : Bool
  genHTTPPassFails : Bool
  genHTTPPassValue : String
  genSSPassFails : Bool
  genSSPassValue : String
  existingInstalled : Bool
  existingActive : Bool
  stopFails : Bool
  backupFails : Bool
  installFails : Bool
  certFails : Bool
  generateFails : Bool
  saveWTEFails : Bool
  createServiceFails : Bool
  daemonReloadFails : Bool
  enableFails : Bool
  startFails : Bool
  statusFails : Bool
  firewallFails : Bool
  credsSaveFails : Bool

/-- Step 3 of `runInstall` (root.go lines 222-269): overlay the install
flags on `DefaultConfig`, generate the HTTP and Shadowsocks passwords
when auth or Shadowsocks is enabled and no explicit password was given,
and copy the HTTP auth block to HTTPS. -/
def buildConfig (f : InstallFlags) (env : InstallEnv) : Config :=
  let httpAuthEnabled := !f.httpNoAuth
  let httpPassword :=
    if httpAuthEnabled then
      (if f.httpPass ≠ "" then f.httpPass else env.genHTTPPassValue)
    else DefaultConfig.http.auth.password
  let httpAuth : AuthConfig := ⟨httpAuthEnabled, f.httpUser, httpPassword⟩
  let ssPassword :=
    if f.ssEnabled then
      (if f.ssPassword ≠ "" then f.ssPassword else env.genSSPassValue)
    else DefaultConfig.shadowsocks.password
  ⟨⟨f.gostVersion, DefaultConfig.gost.binaryPath, DefaultConfig.gost.configDir,
     DefaultConfig.gost.configFile⟩,
   ⟨DefaultConfig.http.enabled, f.httpPort, httpAuth⟩,
   ⟨f.httpsEnabled, f.httpsPort, DefaultConfig.https.certPath,
     DefaultConfig.https.keyPath, httpAuth⟩,
   ⟨f.ssEnabled, f.ssPort, f.ssMethod, ssPassword⟩,
   ⟨!f.skipFirewall⟩,
   DefaultConfig.logging⟩

/-- Embedding of `runInstall` (internal/cli/root.go lines 179-434) as a
sequence over the outcome environment: fatal steps return an error
immediately, advisory steps append a warning tag and continue, and a
successful run returns the accumulated warning list. -/
def runInstall (f : InstallFlags) (env : InstallEnv) : Except String (List String) :=
  if env.notRoot then .error "this command must be run as root" else
  if env.detectOSFails then .error "failed to detect OS" else
  let ws : List String := if env.publicIPFails then ["could not detect public IP"] else []
  if (!f.httpNoAuth) && (f.httpPass == "") && env.genHTTPPassFails then
    .error "failed to generate HTTP password" else
  if f.ssEnabled && (f.ssPassword == "") && env.genSSPassFails then
    .error "failed to generate Shadowsocks password" else
  let cfg := buildConfig f env
  let ws := if env.existingInstalled && env.existingActive && env.stopFails then
      ws ++ ["could not stop service"] else ws
  let ws := if env.existingInstalled && env.backupFails then
      ws ++ ["could not backup configuration"] else ws
  if env.installFails then .error "failed to install GOST" else
  if f.httpsEnabled && env.certFails then .error "failed to generate certificate" else
  match Validate cfg with
  | .error e => .error ("configuration validation failed: " ++ e)
  | .ok _ =>
    if env.generateFails then .error "failed to generate configuration" else
    let ws := if env.saveWTEFails then ws ++ ["could not save WTE configuration"] else ws
    if env.createServiceFails then .error "failed to create systemd service" else
    if env.daemonReloadFails then .error "failed to reload systemd" else
    if env.enableFails then .error "failed to enable service" else
    if env.startFails then .error "failed to start service" else
    let ws := if env.statusFails then ws ++ ["could not get service status"] else ws
    let ws := if (!f.skipFirewall) && env.firewallFails then
        ws ++ ["failed to configure firewall"] else ws
    let ws := if env.credsSaveFails then ws ++ ["could not save credentials file"] else ws
    .ok ws

/-! ### Config persistence round-trip (internal/config/loader.go) -/

/-- A scalar YAML value as it appears in the tool's config file. -/
inductive YamlValue where
  | b (x : Bool)
  | i (x : Int)
  | s (x : String)
deriving DecidableEq, Repr

/-- The config file's content as a flat key-to-scalar map; keys are the
dotted paths induced by the `yaml`/`mapstructure` struct tags (the two
tag sets coincide on every field of `Config`). -/
def YamlDoc : Type := List (String × YamlValue)

/-- Embedding of `SaveTo` (loader.go lines 124-143): `yaml.Marshal`
serialises every field of the configuration under its `yaml` tag path. -/
def saveConfigYaml (c : Config) : YamlDoc :=
  [("gost.version", .s c.gost.version),
   ("gost.binary_path", .s c.gost.binaryPath),
   ("gost.config_dir", .s c.gost.configDir),
   ("gost.config_file", .s c.gost.configFile),
   ("http.enabled", .b c.http.enabled),
   ("http.port", .i c.http.port),
   ("http.auth.enabled", .b c.http.auth.enabled),
   ("http.auth.username", .s c.http.auth.username),
   ("http.auth.password", .s c.http.auth.password),
   ("https.enabled", .b c.https.enabled),
   ("https.port", .i c.https.port),
   ("https.cert_path", .s c.https.certPath),
   ("https.key_path", .s c.https.keyPath),
   ("https.auth.enabled", .b c.https.auth.enabled),
   ("https.auth.username", .s c.https.auth.username),
   ("https.auth.password", .s c.https.auth.password),
   ("shadowsocks.enabled", .b c.shadowsocks.enabled),
   ("shadowsocks.port", .i c.shadowsocks.port),
   ("shadowsocks.method", .s c.shadowsocks.method),
   ("shadowsocks.password", .s c.shadowsocks.password),
   ("firewall.auto_configure", .b c.firewall.autoConfigure),
   ("logging.level", .s c.logging.level)]

/-- Key lookup in the parsed config file. -/
def docLookup : YamlDoc → String → Option YamlValue
  | [], _ => none
  | (k, v) :: rest, key => if k = key then some v else docLookup rest key

/-- Viper's resolution of a string key during `Init`/`Load`
(loader.go lines 22-59): an environment variable (`WTE_` prefix with
dots replaced by underscores, modelled here as indexed by the config
key) takes precedence, then the config file, then the default set by
`setDefaults`. -/
def viperString (envv : String → Option YamlValue) (doc : YamlDoc)
    (key dflt : String) : String :=
  match envv key with
  | some (.s x) => x
  | some _ => dflt
  | none =>
    match docLookup doc key with
    | some (.s x) => x
    | _ => dflt

/-- Viper's resolution of an integer key during `Init`/`Load`. -/
def viperInt (envv : String → Option YamlValue) (doc : YamlDoc)
    (key : String) (dflt : Int) : Int :=
  match envv key with
  | some (.i x) => x
  | some _ => dflt
  | none =>
    match docLookup doc key with
    | some (.i x) => x
    | _ => dflt

/-- Viper's resolution of a boolean key during `Init`/`Load`. -/
def viperBool (envv : String → Option YamlValue) (doc : YamlDoc)
    (key : String) (dflt : Bool) : Bool :=
  match envv key with
  | some (.b x) => x
  | some _ => dflt
  | none =>
    match docLookup doc key with
    | some (.b x) => x
    | _ => dflt

/-- Embedding of `Init`/`Load` (loader.go lines 22-59 and 146-148):
set the defaults of `setDefaults`, read the config file, let matching
environment variables override, and unmarshal every field of `Config`
by its `mapstructure` tag path. -/
def loadConfig (envv : String → Option YamlValue) (doc : YamlDoc) : Config :=
  ⟨⟨viperString envv doc "gost.version" "3.0.0-rc10",
    viperString envv doc "gost.binary_path" "/usr/local/bin/gost",
    viperString envv doc "gost.config_dir" "/etc/gost",
    viperString envv doc "gost.config_file" "/etc/gost/config.yaml"⟩,
   ⟨viperBool envv doc "http.enabled" true,
    viperInt envv doc "http.port" 8080,
    ⟨viperBool envv doc "http.auth.enabled" true,
     viperString envv doc "http.auth.username" "proxyuser",
     viperString envv doc "http.auth.password" ""⟩⟩,
   ⟨viperBool envv doc "https.enabled" false,
    viperInt envv doc "https.port" 8443,
    viperString envv doc "https.cert_path" "/etc/gost/cert.pem",
    viperString envv doc "https.key_path" "/etc/gost/key.pem",
    ⟨viperBool envv doc "https.auth.enabled" true,
     viperString envv doc "https.auth.username" "proxyuser",
     viperString envv doc "https.auth.password" ""⟩⟩,
   ⟨viperBool envv doc "shadowsocks.enabled" true,
    viperInt envv doc "shadowsocks.port" 9500,
    viperString envv doc "shadowsocks.method" "aes-128-gcm",
    viperString envv doc "shadowsocks.password" ""⟩,
   ⟨viperBool envv doc "firewall.auto_configure" true⟩,
   ⟨viperString envv doc "logging.level" "info"⟩⟩

/-! ### Claim theorems (first group) -/

/-- C1: Self-update version comparison strips a leading "v" from both the
current version and the latest release tag and compares the remainders as
plain strings; with current version "1.9.0" and latest tag "v1.10.0",
`CheckForUpdate` reports `hasUpdate = false`, because the lexicographic
comparison "1.10.0" > "1.9.0" evaluates to false. -/
theorem c1_checkForUpdate_lexicographic :
    checkForUpdateHasUpdate "1.9.0" "v1.10.0" = false
    ∧ trimLeadingV "v1.10.0" = "1.10.0"
    ∧ trimLeadingV "1.9.0" = "1.9.0"
    ∧ goStringLess "1.9.0" "1.10.0" = false
    ∧ checkForUpdateHasUpdate "v1.9.0" "v1.10.0" = false := by
  refine ⟨?_, ?_, ?_, ?_, ?_⟩ <;> decide

/-- C4: Firewall backend detection follows the fixed precedence
ufw → firewalld (only when firewall-cmd exists and firewalld is actively
running) → iptables → none; in particular, with both ufw present and
firewalld actively running, ufw is selected. -/
theorem c4_detectFirewall_precedence :
    (∀ h : FirewallHost, h.ufwExists = true → detectFirewall h = FirewallUFW)
    ∧ (∀ h : FirewallHost, h.ufwExists = false → h.firewallCmdExists = true →
        h.firewalldActive = true → detectFirewall h = FirewallFirewalld)
    ∧ (∀ h : FirewallHost, h.ufwExists = false →
        (h.firewallCmdExists && h.firewalldActive) = false →
        h.iptablesExists = true → detectFirewall h = FirewallIPTables)
    ∧ (∀ h : FirewallHost, h.ufwExists = false →
        (h.firewallCmdExists && h.firewalldActive) = false →
        h.iptablesExists = false → detectFirewall h = FirewallNone)
    ∧ detectFirewall ⟨true, true, true, true⟩ = FirewallUFW := by
  refine ⟨?_, ?_, ?_, ?_, rfl⟩ <;>
    · intro h
      intros
      simp [detectFirewall, *]

/-- C4 witness: both the ufw-beats-active-firewalld case and the
firewalld case of the precedence theorem, at concrete hosts. -/
theorem c4_detectFirewall_precedence_witness :
    detectFirewall ⟨true, true, true, true⟩ = FirewallUFW
    ∧ detectFirewall ⟨false, true, true, true⟩ = FirewallFirewalld :=
  ⟨c4_detectFirewall_precedence.1 ⟨true, true, true, true⟩ rfl,
   c4_detectFirewall_precedence.2.1 ⟨false, true, true, true⟩ rfl rfl rfl⟩

/-- C7: Of the supported architecture-probe inputs, each maps to exactly
one artifact architecture (amd64 → amd64, arm64 → arm64, arm → armv7),
and every other runtime architecture value fails immediately with an
unsupported-architecture error. -/
theorem c7_detectArch_table :
    detectArch "amd64" = .ok ⟨"x86_64", "amd64"⟩
    ∧ detectArch "arm64" = .ok ⟨"aarch64", "arm64"⟩
    ∧ detectArch "arm" = .ok ⟨"armv7l", "armv7"⟩
    ∧ ∀ s : String, s ≠ "amd64" → s ≠ "arm64" → s ≠ "arm" →
        detectArch s = .error ("unsupported architecture: " ++ s) := by
  refine ⟨rfl, rfl, rfl, ?_⟩
  intro s h1 h2 h3
  simp [detectArch, h1, h2, h3]

/-- C7 witness: a fifth architecture value fails with the
unsupported-architecture error. -/
theorem c7_detectArch_table_witness :
    detectArch "mips" = Except.error "unsupported architecture: mips" := by
  simpa using c7_detectArch_table.2.2.2 "mips" (by decide) (by decide) (by decide)

/-- C3: `Validate` returns an error exactly when zero services are
enabled or two enabled services share a port; it considers enabled
services in the order HTTP, HTTPS, Shadowsocks, and a later service
claiming a used port fails with an error naming the earlier claimant. -/
theorem c3_validate_spec (c : Config) :
    (Validate c = .ok () ↔
      ((c.http.enabled || c.https.enabled || c.shadowsocks.enabled) = true
        ∧ (c.http.enabled = true → c.https.enabled = true →
            c.http.port ≠ c.https.port)
        ∧ (c.http.enabled = true → c.shadowsocks.enabled = true →
            c.http.port ≠ c.shadowsocks.port)
        ∧ (c.https.enabled = true → c.shadowsocks.enabled = true →
            c.https.port ≠ c.shadowsocks.port)))
    ∧ (c.http.enabled = false → c.https.enabled = false →
        c.shadowsocks.enabled = false →
        Validate c = .error "at least one service must be enabled")
    ∧ (c.http.enabled = true → c.https.enabled = true →
        c.https.port = c.http.port →
        Validate c = .error (conflictMsg c.https.port "HTTPS" "HTTP"))
    ∧ (c.http.enabled = true → c.shadowsocks.enabled = true →
        c.shadowsocks.port = c.http.port →
        (c.https.enabled = true → c.https.port ≠ c.http.port) →
        Validate c = .error (conflictMsg c.shadowsocks.port "Shadowsocks" "HTTP"))
    ∧ (c.https.enabled = true → c.shadowsocks.enabled = true →
        c.shadowsocks.port = c.https.port →
        (c.http.enabled = true → c.http.port ≠ c.https.port) →
        (c.http.enabled = true → c.http.port ≠ c.shadowsocks.port) →
        Validate c = .error (conflictMsg c.shadowsocks.port "Shadowsocks" "HTTPS")) := by
  by_cases h1 : c.http.port = c.https.port <;>
    by_cases h2 : c.http.port = c.shadowsocks.port <;>
    by_cases h3 : c.https.port = c.shadowsocks.port <;>
    cases hh : c.http.enabled <;> cases hs : c.https.enabled <;>
    cases hw : c.shadowsocks.enabled <;>
    refine ⟨?_, ?_, ?_, ?_, ?_⟩ <;>
    (try simp_all [Validate, claimPort, portsLookup, conflictMsg])

/-- C3 witness: the theorem instantiated at a configuration with all
three services enabled on distinct ports, which `Validate` accepts. -/
theorem c3_validate_spec_witness :
    Validate
      ⟨⟨"3.0.0-rc10", "/usr/local/bin/gost", "/etc/gost", "/etc/gost/config.yaml"⟩,
        ⟨true, 8080, ⟨true, "proxyuser", "pw"⟩⟩,
        ⟨true, 8443, "/etc/gost/cert.pem", "/etc/gost/key.pem", ⟨true, "proxyuser", "pw"⟩⟩,
        ⟨true, 9500, "aes-128-gcm", "sspw"⟩, ⟨true⟩, ⟨"info"⟩⟩ = .ok () := by
  exact (c3_validate_spec _).1.mpr (by refine ⟨rfl, ?_, ?_, ?_⟩ <;> intros <;> decide)

/-- C5: During self-update the running executable is first renamed to a
`.backup` sibling; a failure of the copy or of the chmod restores the
backup to the original path and returns an error; when both succeed the
backup file is deleted and the new binary sits at the executable path. -/
theorem c5_update_swap (fs : FS) (binaryPath execPath orig newBin : String)
    (copyFails chmodFails : Bool)
    (hexec : fs execPath = some orig)
    (hbin : fs binaryPath = some newBin)
    (hne1 : binaryPath ≠ execPath)
    (hne2 : binaryPath ≠ execPath ++ ".backup") :
    (fs.rename execPath (execPath ++ ".backup") =
        .ok ((fs.remove execPath).write (execPath ++ ".backup") orig))
    ∧ ((copyFails || chmodFails) = true →
        exceptOk (updateSwap fs binaryPath execPath copyFails chmodFails).1 = false
        ∧ (updateSwap fs binaryPath execPath copyFails chmodFails).2 execPath
            = some orig)
    ∧ (copyFails = false → chmodFails = false →
        (updateSwap fs binaryPath execPath copyFails chmodFails).1 = .ok ()
        ∧ (updateSwap fs binaryPath execPath copyFails chmodFails).2 execPath
            = some newBin
        ∧ (updateSwap fs binaryPath execPath copyFails chmodFails).2
            (execPath ++ ".backup") = none) := by
  have hb := append_backup_ne execPath
  refine ⟨by simp [FS.rename, hexec], ?_, ?_⟩
  · intro hfail
    cases hcf : copyFails <;> cases hcm : chmodFails <;> simp [hcf, hcm] at hfail ⊢ <;>
      simp [updateSwap, FS.rename, FS.copyFile, FS.write, FS.remove, exceptOk,
        hexec, hbin, hne1, hne2, hb, Ne.symm hb]
  · intro hcf hcm
    simp [updateSwap, FS.rename, FS.copyFile, FS.write, FS.remove, exceptOk,
      hexec, hbin, hne1, hne2, hb, Ne.symm hb, hcf, hcm]

/-- C5 witness: the theorem instantiated on a concrete filesystem, both
for a failing chmod (original restored, error returned) and for the
success path (backup deleted, new binary installed). -/
theorem c5_update_swap_witness :
    (exceptOk (updateSwap
        (fun p => if p = "/usr/local/bin/wte" then some "OLD"
                  else if p = "/tmp/up/wte" then some "NEW" else none)
        "/tmp/up/wte" "/usr/local/bin/wte" false true).1 = false
      ∧ (updateSwap
          (fun p => if p = "/usr/local/bin/wte" then some "OLD"
                    else if p = "/tmp/up/wte" then some "NEW" else none)
          "/tmp/up/wte" "/usr/local/bin/wte" false true).2 "/usr/local/bin/wte"
          = some "OLD")
    ∧ ((updateSwap
        (fun p => if p = "/usr/local/bin/wte" then some "OLD"
                  else if p = "/tmp/up/wte" then some "NEW" else none)
        "/tmp/up/wte" "/usr/local/bin/wte" false false).1 = .ok ()
      ∧ (updateSwap
          (fun p => if p = "/usr/local/bin/wte" then some "OLD"
                    else if p = "/tmp/up/wte" then some "NEW" else none)
          "/tmp/up/wte" "/usr/local/bin/wte" false false).2 "/usr/local/bin/wte"
          = some "NEW"
      ∧ (updateSwap
          (fun p => if p = "/usr/local/bin/wte" then some "OLD"
                    else if p = "/tmp/up/wte" then some "NEW" else none)
          "/tmp/up/wte" "/usr/local/bin/wte" false false).2
          ("/usr/local/bin/wte" ++ ".backup") = none) := by
  refine ⟨(c5_update_swap _ _ _ "OLD" "NEW" false true (by decide) (by decide)
      (by decide) (by decide)).2.1 (by decide),
    (c5_update_swap _ _ _ "OLD" "NEW" false false (by decide) (by decide)
      (by decide) (by decide)).2.2 rfl rfl⟩

/-- C6: For every requested length greater than zero, `GeneratePassword`
returns (absent a random-source failure, and whenever the recursive
top-up terminates) a string of exactly `length` characters containing
none of `'+'`, `'/'` or `'='`. -/
theorem c6_generatePassword_exact_length_no_specials
    (fuel : Nat) (length : Int) (r : Nat → Nat) (pos : Nat) (s : List Char)
    (hpos : 0 < length) (h : GeneratePassword fuel length r pos = some s) :
    s.length = length.toNat ∧ ∀ c ∈ s, c ≠ '+' ∧ c ≠ '/' ∧ c ≠ '=' :=
  generatePassword_sound fuel length r pos s hpos h

/-- C6 witness: a four-character password generated from the all-zero
random stream. -/
theorem c6_generatePassword_exact_length_no_specials_witness :
    0 < (4 : Int)
    ∧ GeneratePassword 1 4 (fun _ => 0) 0 = some ['A', 'A', 'A', 'A']
    ∧ (['A', 'A', 'A', 'A'].length = (4 : Int).toNat
        ∧ ∀ c ∈ ['A', 'A', 'A', 'A'], c ≠ '+' ∧ c ≠ '/' ∧ c ≠ '=') :=
  ⟨by decide, by decide,
    c6_generatePassword_exact_length_no_specials 1 4 (fun _ => 0) 0
      ['A', 'A', 'A', 'A'] (by decide) (by decide)⟩

/-- C10: For every requested length less than or equal to zero,
`GeneratePassword` substitutes the default length of 16: it behaves
exactly as a request for 16 characters, and any password it returns has
exactly 16 characters (in particular it is not empty and no error beyond
the modelled fuel bound is possible). -/
theorem c10_generatePassword_nonpositive_defaults_to_16
    (fuel : Nat) (length : Int) (r : Nat → Nat) (pos : Nat)
    (hle : length ≤ 0) :
    GeneratePassword (fuel + 1) length r pos = GeneratePassword (fuel + 1) 16 r pos
    ∧ ∀ s, GeneratePassword (fuel + 1) length r pos = some s →
        s.length = 16 ∧ s ≠ [] := by
  have heq : GeneratePassword (fuel + 1) length r pos
      = GeneratePassword (fuel + 1) 16 r pos := by
    rw [GeneratePassword, GeneratePassword]
    simp only [if_pos hle, DefaultPasswordLength]
    norm_num
  refine ⟨heq, ?_⟩
  intro s hs
  rw [heq] at hs
  obtain ⟨hlen, _⟩ := generatePassword_sound (fuel + 1) 16 r pos s (by omega) hs
  refine ⟨by simpa using hlen, ?_⟩
  intro hnil
  rw [hnil] at hlen
  simp at hlen

/-- C10 witness: a request for length −5 produces the 16-character
default-length password from the all-zero random stream. -/
theorem c10_generatePassword_nonpositive_defaults_to_16_witness :
    ((-5 : Int) ≤ 0)
    ∧ GeneratePassword 1 (-5) (fun _ => 0) 0
        = GeneratePassword 1 16 (fun _ => 0) 0
    ∧ GeneratePassword 1 (-5) (fun _ => 0) 0 = some (List.replicate 16 'A')
    ∧ (List.replicate 16 'A').length = 16 ∧ List.replicate 16 'A' ≠ ([] : List Char) := by
  have h := c10_generatePassword_nonpositive_defaults_to_16 0 (-5)
    (fun _ => 0) 0 (by decide)
  have hv : GeneratePassword 1 (-5) (fun _ => 0) 0 = some (List.replicate 16 'A') := by
    decide
  exact ⟨by decide, h.1, hv, (h.2 _ hv).1, (h.2 _ hv).2⟩

/-- C8: The public-IP probe step never aborts the flow: `GetPublicIP`
iterates the fixed five-endpoint list, the step returns the first trimmed
response body matching the dotted-quad pattern, and on total failure the
caller substitutes the literal placeholder `"YOUR_SERVER_IP"` with a
warning and the install flow continues. -/
theorem c8_publicIP_never_fails (responses : String → Option String) :
    IPServices.length = 5
    ∧ ((∀ svc ∈ IPServices, ∀ b, responses svc = some b →
          matchIPPattern (trimSpace b) = false) →
        publicIPStep responses = ("YOUR_SERVER_IP", true))
    ∧ (∀ (pre : List String) (svc : String) (post : List String) (b : String),
        IPServices = pre ++ svc :: post →
        responses svc = some b → matchIPPattern (trimSpace b) = true →
        (∀ s ∈ pre, ∀ b2, responses s = some b2 →
          matchIPPattern (trimSpace b2) = false) →
        publicIPStep responses = (trimSpace b, false)) := by
  refine ⟨rfl, ?_, ?_⟩
  · intro hall
    have h := getPublicIPFrom_total_failure responses IPServices hall
    simp [publicIPStep, GetPublicIP, h]
  · intro pre svc post b hsplit hr hm hpre
    have h := getPublicIPFrom_first_match responses pre svc post b hr hm hpre
    rw [← hsplit] at h
    simp [publicIPStep, GetPublicIP, h]

/-- C8 witness: with the first endpoint unreachable and the second
answering `"203.0.113.7\n"`, the step returns the trimmed address; with
no endpoint answering, the step returns the placeholder and warns. -/
theorem c8_publicIP_never_fails_witness :
    publicIPStep
      (fun svc => if svc = "https://icanhazip.com" then some "203.0.113.7\n" else none)
      = ("203.0.113.7", false)
    ∧ publicIPStep (fun _ => none) = ("YOUR_SERVER_IP", true) := by
  constructor
  · have h := (c8_publicIP_never_fails
      (fun svc => if svc = "https://icanhazip.com" then some "203.0.113.7\n" else none)).2.2
      ["https://ifconfig.me"] "https://icanhazip.com"
      ["https://ipinfo.io/ip", "https://api.ipify.org", "https://ipecho.net/plain"]
      "203.0.113.7\n" rfl (by decide) (by decide) ?_
    · have htrim : trimSpace "203.0.113.7\n" = "203.0.113.7" := by decide
      rw [htrim] at h
      exact h
    · intro s hs b2 hb2
      simp only [List.mem_singleton] at hs
      subst hs
      simp at hb2
  · exact (c8_publicIP_never_fails (fun _ => none)).2.1
      (fun svc _ b hb => by simp at hb)

/-- C2 counterexample: a run in which every step succeeds except
persisting the tool's own configuration (`config.SaveTo`) does not abort;
`runInstall` downgrades that failure to a warning and returns success,
refuting the claim that the save-configuration step is fatal. -/
theorem c2_saveConfig_not_fatal_counterexample :
    runInstall
      ⟨8080, "proxyuser", "", false, true, 9500, "", "aes-128-gcm", false, 8443,
        "3.0.0-rc10", false⟩
      ⟨false, false, false, false, "hpw", false, "spw", false, false, false, false,
        false, false, false, true, false, false, false, false, false, false, false⟩
      = .ok ["could not save WTE configuration"] := by
  rfl

/-- C2 (amended): `runInstall` succeeds exactly when every fatal step
succeeds — root check, OS detection, the two password generations (when
required), artifact install, certificate generation (when HTTPS is
enabled), config validation, config rendering, and the systemd
create/reload/enable/start steps. The advisory steps — public-IP
detection, stopping and backing up an existing installation, persisting
the tool's own configuration, the post-start status query, firewall
configuration and credential persistence — never abort the sequence. -/
theorem c2_amended_fatal_advisory_policy (f : InstallFlags) (env : InstallEnv) :
    exceptOk (runInstall f env) = true ↔
      (env.notRoot = false ∧ env.detectOSFails = false
        ∧ ((!f.httpNoAuth) && (f.httpPass == "") && env.genHTTPPassFails) = false
        ∧ (f.ssEnabled && (f.ssPassword == "") && env.genSSPassFails) = false
        ∧ env.installFails = false
        ∧ (f.httpsEnabled && env.certFails) = false
        ∧ exceptOk (Validate (buildConfig f env)) = true
        ∧ env.generateFails = false
        ∧ env.createServiceFails = false
        ∧ env.daemonReloadFails = false
        ∧ env.enableFails = false
        ∧ env.startFails = false) := by
  cases h1 : env.notRoot with
  | true => simp [runInstall, exceptOk, h1]
  | false =>
  cases h2 : env.detectOSFails with
  | true => simp [runInstall, exceptOk, h1, h2]
  | false =>
  cases h3 : ((!f.httpNoAuth) && (f.httpPass == "") && env.genHTTPPassFails) with
  | true => simp [runInstall, exceptOk, h1, h2, h3]
  | false =>
  cases h4 : (f.ssEnabled && (f.ssPassword == "") && env.genSSPassFails) with
  | true => simp [runInstall, exceptOk, h1, h2, h3, h4]
  | false =>
  cases h5 : env.installFails with
  | true => simp [runInstall, exceptOk, h1, h2, h3, h4, h5]
  | false =>
  cases h6 : (f.httpsEnabled && env.certFails) with
  | true => simp [runInstall, exceptOk, h1, h2, h3, h4, h5, h6]
  | false =>
  cases hv : Validate (buildConfig f env) with
  | error e => simp [runInstall, exceptOk, h1, h2, h3, h4, h5, h6, hv]
  | ok u =>
  cases h7 : env.generateFails with
  | true => simp [runInstall, exceptOk, h1, h2, h3, h4, h5, h6, hv, h7]
  | false =>
  cases h8 : env.createServiceFails with
  | true => simp [runInstall, exceptOk, h1, h2, h3, h4, h5, h6, hv, h7, h8]
  | false =>
  cases h9 : env.daemonReloadFails with
  | true => simp [runInstall, exceptOk, h1, h2, h3, h4, h5, h6, hv, h7, h8, h9]
  | false =>
  cases h10 : env.enableFails with
  | true => simp [runInstall, exceptOk, h1, h2, h3, h4, h5, h6, hv, h7, h8, h9, h10]
  | false =>
  cases h11 : env.startFails with
  | true =>
    simp [runInstall, exceptOk, h1, h2, h3, h4, h5, h6, hv, h7, h8, h9, h10, h11]
  | false =>
    simp [runInstall, exceptOk, h1, h2, h3, h4, h5, h6, hv, h7, h8, h9, h10, h11]

/-- C9: Round-trip — persisting any `Config` with `SaveTo` and reloading
it with `Load`/`Init` (in an environment that sets no `WTE_` override
variables) reproduces a `Config` equal to the original in every field. -/
theorem c9_config_roundtrip (c : Config) (envv : String → Option YamlValue)
    (henv : ∀ k, envv k = none) :
    loadConfig envv (saveConfigYaml c) = c := by
  simp only [loadConfig, viperString, viperInt, viperBool, henv]
  rfl

/-- C9 witness: the round-trip at the default configuration with an
empty environment. -/
theorem c9_config_roundtrip_witness :
    loadConfig (fun _ => none) (saveConfigYaml DefaultConfig) = DefaultConfig :=
  c9_config_roundtrip DefaultConfig (fun _ => none) (fun _ => rfl)

/-- C2 witness: the amended policy theorem instantiated at an all-success
environment, where the run succeeds. -/
theorem c2_amended_fatal_advisory_policy_witness :
    exceptOk (runInstall
      ⟨8080, "proxyuser", "", false, true, 9500, "", "aes-128-gcm", false, 8443,
        "3.0.0-rc10", false⟩
      ⟨false, false, false, false, "hpw", false, "spw", false, false, false, false,
        false, false, false, false, false, false, false, false, false, false,
        false⟩) = true :=
  (c2_amended_fatal_advisory_policy
    ⟨8080, "proxyuser", "", false, true, 9500, "", "aes-128-gcm", false, 8443,
      "3.0.0-rc10", false⟩
    ⟨false, false, false, false, "hpw", false, "spw", false, false, false, false,
      false, false, false, false, false, false, false, false, false, false,
      false⟩).mpr
    ⟨rfl, rfl, rfl, rfl, rfl, rfl, rfl, rfl, rfl, rfl, rfl, rfl⟩

end WTE
